import Mathlib

/-!
Verification development for the chatbot-platform frontend.

The definitions below are a shallow embedding of the client-side handlers of
the repository: the chat page (Chat.jsx), the axios interceptors (api.js),
the route guards (App.jsx), the dashboard project list, the registration
form, and the project-detail page (prompt toggling, file upload).  Stateful
React handlers become pure functions from the relevant state and the outcome
of the asynchronous call to the new state together with a record of the
effects performed (request issued, navigation, dialogs).
-/

/-- Chat message as stored in the client message list: role, content and an
ISO timestamp string. -/
structure Message where
  role : String
  content : String
  timestamp : String
deriving DecidableEq, Repr

/-- State of the Chat page that handleSendMessage and handleSelectSession
read and write: the project id from the route, the current session id
(null when no session has been started), the message list, the text input
and the sending flag. -/
structure ChatState where
  projectId : String
  currentSessionId : Option String
  messages : List Message
  inputValue : String
  sending : Bool
deriving DecidableEq, Repr

/-- Body of the chat POST built by chatAPI.sendMessage:
`{ message, session_id: sessionId }`. -/
structure ChatPayload where
  message : String
  session_id : Option String
deriving DecidableEq, Repr

/-- Outcome of the awaited chat request: a 200 body `{session_id, message}`
or a rejection. -/
inductive SendResult where
  | success (session_id : String) (message : Message)
  | failure
deriving DecidableEq, Repr

/-- What a run of handleSendMessage produced: the final component state,
whether a chat request was issued, its payload, and any navigation target. -/
structure SendOutcome where
  state : ChatState
  requestIssued : Bool
  requestPayload : Option ChatPayload
  navigatedTo : Option String
deriving DecidableEq, Repr

/-- Whitespace trimming as performed by the JavaScript `trim()` method:
leading and trailing whitespace characters are removed.  Implemented over
the character list so that it evaluates by kernel reduction. -/
def jsTrim (s : String) : String :=
  ⟨((s.data.dropWhile Char.isWhitespace).reverse.dropWhile
      Char.isWhitespace).reverse⟩

/-- Route of a chat session, as built in Chat.jsx for navigate. -/
def chatRoute (projectId sid : String) : String :=
  "/project/" ++ projectId ++ "/chat/" ++ sid

/-- Embedding of handleSendMessage (Chat.jsx).  It returns early when the
trimmed input is empty or a send is in flight; otherwise it clears the
input, optimistically appends the user message, issues the request with
body `{message, session_id}`, and on success appends the returned assistant
message (adopting the returned session id and navigating when there was no
current session), while on error it removes the last element of the message
list.  The timestamp of `new Date().toISOString()` is passed in as `ts`. -/
def handleSendMessage (st : ChatState) (ts : String) (result : SendResult) :
    SendOutcome :=
  if jsTrim st.inputValue = "" ∨ st.sending = true then
    { state := st, requestIssued := false, requestPayload := none,
      navigatedTo := none }
  else
    let message := jsTrim st.inputValue
    let userMessage : Message :=
      { role := "user", content := message, timestamp := ts }
    let optimistic := st.messages ++ [userMessage]
    let payload : ChatPayload :=
      { message := message, session_id := st.currentSessionId }
    match result with
    | .success sid respMsg =>
        match st.currentSessionId with
        | none =>
            { state := { st with currentSessionId := some sid,
                                 messages := optimistic ++ [respMsg],
                                 inputValue := "", sending := false },
              requestIssued := true, requestPayload := some payload,
              navigatedTo := some (chatRoute st.projectId sid) }
        | some _ =>
            { state := { st with messages := optimistic ++ [respMsg],
                                 inputValue := "", sending := false },
              requestIssued := true, requestPayload := some payload,
              navigatedTo := none }
    | .failure =>
        { state := { st with messages := optimistic.dropLast,
                             inputValue := "", sending := false },
          requestIssued := true, requestPayload := some payload,
          navigatedTo := none }

/-- Modelled from the spec: the backend completion gateway (spec section 4.4)
is not under src/, only its client is.  Per the spec it appends the user
message to the session immediately, then on upstream success appends the
provider reply as an assistant message, and on upstream failure surfaces the
error leaving the dangling user message in place. -/
def gatewaySend (history : List Message) (userMsg : Message)
    (upstream : Option Message) : List Message × Bool :=
  match upstream with
  | some reply => (history ++ [userMsg, reply], true)
  | none => (history ++ [userMsg], false)

/-- Effects of handleSelectSession (Chat.jsx): final state, navigation
target and the session id a fetch was issued for, if any. -/
structure SelectOutcome where
  state : ChatState
  navigatedTo : Option String
  fetchedSession : Option String
deriving DecidableEq, Repr

/-- Embedding of handleSelectSession (Chat.jsx): selecting the current
session returns early; otherwise it sets the current session id, navigates
to the session route and fetches the session, whose returned message list
(`[]` on fetch error) replaces the messages. -/
def handleSelectSession (st : ChatState) (sid : String)
    (fetchedMessages : List Message) : SelectOutcome :=
  if some sid = st.currentSessionId then
    { state := st, navigatedTo := none, fetchedSession := none }
  else
    { state := { st with currentSessionId := some sid,
                         messages := fetchedMessages },
      navigatedTo := some (chatRoute st.projectId sid),
      fetchedSession := some sid }

/-- Request configuration as far as the request interceptor touches it:
the Authorization header, absent unless set. -/
structure RequestConfig where
  authorization : Option String
deriving DecidableEq, Repr

/-- Embedding of the axios request interceptor (api.js): when a token is in
localStorage the Authorization header is set to the Bearer form of it,
otherwise the configuration is returned untouched. -/
def requestInterceptor (storedToken : Option String)
    (config : RequestConfig) : RequestConfig :=
  match storedToken with
  | some t => { config with authorization := some ("Bearer " ++ t) }
  | none => config

/-- Browser-visible state the response interceptor touches: the stored
token, the current pathname and the location href. -/
structure BrowserEnv where
  token : Option String
  pathname : String
  href : String
deriving DecidableEq, Repr

/-- Embedding of the axios response error interceptor (api.js): on a 401
response it removes the stored token and redirects to /login unless the
pathname is already /login; every other error (including one with no
response status) passes through with the environment untouched. -/
def responseErrorInterceptor (status : Option Nat) (env : BrowserEnv) :
    BrowserEnv :=
  if status = some 401 then
    let cleared := { env with token := none }
    if cleared.pathname ≠ "/login" then { cleared with href := "/login" }
    else cleared
  else env

/-- Embedding of the axios response success interceptor (api.js), which
returns the response unchanged and touches nothing. -/
def responseSuccessInterceptor (env : BrowserEnv) : BrowserEnv := env

/-- Custom prompt record as held in the ProjectDetail state. -/
structure Prompt where
  id : String
  name : String
  content : String
  is_active : Bool
  created_at : String
deriving DecidableEq, Repr

/-- Body of the prompt update PUT.  Each field of the record is optional;
the JavaScript object literal carries only the fields that are present. -/
structure PromptUpdatePayload where
  name : Option String := none
  content : Option String := none
  is_active : Option Bool := none
deriving DecidableEq, Repr

/-- Embedding of handleTogglePrompt (ProjectDetail): it PUTs the payload
`\x7b is_active: !prompt.is_active \x7d` and maps the local list, flipping
is_active on the entries whose id matches the clicked prompt. -/
def handleTogglePrompt (prompts : List Prompt) (prompt : Prompt) :
    PromptUpdatePayload × List Prompt :=
  ({ is_active := some (!prompt.is_active) },
   prompts.map (fun p =>
     if p.id = prompt.id then { p with is_active := !p.is_active } else p))

/-- File selected in the browser file input. -/
structure BrowserFile where
  name : String
  content : String
deriving DecidableEq, Repr

/-- File record as returned by the backend and held in the local list. -/
structure FileRec where
  id : String
  filename : String
  size_bytes : Nat
deriving DecidableEq, Repr

/-- Effects of handleFileUpload (ProjectDetail): the final file list, how
many upload requests were issued, and the multipart form fields and
Content-Type of the request when one was made. -/
structure UploadOutcome where
  files : List FileRec
  requestCount : Nat
  formFields : Option (List (String × BrowserFile))
  contentType : Option String
deriving DecidableEq, Repr

/-- Form data built by fileAPI.upload (api.js): a single field named
"file" holding the selected file. -/
def fileUploadFormData (file : BrowserFile) : List (String × BrowserFile) :=
  [("file", file)]

/-- Embedding of handleFileUpload (ProjectDetail): with no file selected it
returns early; otherwise it issues one multipart upload via fileAPI.upload
and on success prepends the returned record to the local list, on error
leaving the list as it was. -/
def handleFileUpload (selected : Option BrowserFile) (files : List FileRec)
    (result : Option FileRec) : UploadOutcome :=
  match selected with
  | none =>
      { files := files, requestCount := 0, formFields := none,
        contentType := none }
  | some f =>
      match result with
      | some fr =>
          { files := fr :: files, requestCount := 1,
            formFields := some (fileUploadFormData f),
            contentType := some "multipart/form-data" }
      | none =>
          { files := files, requestCount := 1,
            formFields := some (fileUploadFormData f),
            contentType := some "multipart/form-data" }

/-- Project record as held in the Dashboard list. -/
structure Project where
  id : String
  name : String
  created_at : String
deriving DecidableEq, Repr

/-- Text of the confirmation dialog shown by handleDeleteProject
(Dashboard). -/
def confirmDeleteProjectText : String :=
  "Are you sure you want to delete this project? All associated data will be lost."

/-- Effects of handleDeleteProject (Dashboard): the final project list and
whether a delete request was issued. -/
structure DeleteOutcome where
  projects : List Project
  requestIssued : Bool
deriving DecidableEq, Repr

/-- Embedding of handleDeleteProject (Dashboard): it returns early unless
the confirmation dialog is accepted; otherwise it issues the delete and on
success filters the clicked id out of the local list, on error leaving the
list as it was. -/
def handleDeleteProject (projects : List Project) (projectId : String)
    (confirmed : Bool) (success : Bool) : DeleteOutcome :=
  if confirmed = false then
    { projects := projects, requestIssued := false }
  else if success then
    { projects := projects.filter (fun p => p.id ≠ projectId),
      requestIssued := true }
  else
    { projects := projects, requestIssued := true }

/-- Page components of the router in App.jsx. -/
inductive Page where
  | login
  | register
  | dashboard
  | projectDetail (pid : String)
  | chat (pid : String) (sid : Option String)
deriving DecidableEq, Repr

/-- What a route renders: the loading spinner, a Navigate redirect, or a
page component. -/
inductive Rendered where
  | spinner
  | navigate (target : String)
  | page (p : Page)
deriving DecidableEq, Repr

/-- Authentication state exposed by useAuth: the current user (modelled by
an identifier) and the loading flag. -/
structure AuthState where
  user : Option String
  loading : Bool
deriving DecidableEq, Repr

/-- Embedding of ProtectedRoute (App.jsx): spinner while loading, redirect
to /login when no user, otherwise the child. -/
def protectedRoute (auth : AuthState) (child : Rendered) : Rendered :=
  if auth.loading = true then Rendered.spinner
  else
    match auth.user with
    | none => Rendered.navigate "/login"
    | some _ => child

/-- Embedding of PublicRoute (App.jsx): spinner while loading, redirect to
/dashboard when a user is present, otherwise the child. -/
def publicRoute (auth : AuthState) (child : Rendered) : Rendered :=
  if auth.loading = true then Rendered.spinner
  else
    match auth.user with
    | some _ => Rendered.navigate "/dashboard"
    | none => child

/-- Routes of the router in App.jsx: the two public routes, the four
protected routes, the root path and the catch-all. -/
inductive Route where
  | login
  | register
  | dashboard
  | project (pid : String)
  | projectChat (pid : String)
  | projectChatSession (pid : String) (sid : String)
  | root
  | catchAll (path : String)
deriving DecidableEq, Repr

/-- Embedding of the route table of App (App.jsx). -/
def appRender (auth : AuthState) (r : Route) : Rendered :=
  match r with
  | .login => publicRoute auth (Rendered.page Page.login)
  | .register => publicRoute auth (Rendered.page Page.register)
  | .dashboard => protectedRoute auth (Rendered.page Page.dashboard)
  | .project pid => protectedRoute auth (Rendered.page (Page.projectDetail pid))
  | .projectChat pid => protectedRoute auth (Rendered.page (Page.chat pid none))
  | .projectChatSession pid sid =>
      protectedRoute auth (Rendered.page (Page.chat pid (some sid)))
  | .root => Rendered.navigate "/dashboard"
  | .catchAll _ => Rendered.navigate "/dashboard"

/-- Outcome of the register API call awaited by handleSubmit (Register):
success, or a rejection carrying the optional response detail string. -/
inductive RegisterApiResult where
  | success
  | failure (detail : Option String)
deriving DecidableEq, Repr

/-- Effects of handleSubmit (Register): the error banner text, whether the
register call was made, and any navigation target. -/
structure RegisterOutcome where
  error : String
  registerCalled : Bool
  navigatedTo : Option String
deriving DecidableEq, Repr

/-- Embedding of handleSubmit (Register): it rejects a submission whose
passwords differ or whose password is shorter than 6 characters without
calling register; otherwise it calls register and navigates to /dashboard
on success or shows the error detail on failure. -/
def handleRegisterSubmit (password confirmPassword : String)
    (apiResult : RegisterApiResult) : RegisterOutcome :=
  if password ≠ confirmPassword then
    { error := "Passwords do not match", registerCalled := false,
      navigatedTo := none }
  else if password.length < 6 then
    { error := "Password must be at least 6 characters",
      registerCalled := false, navigatedTo := none }
  else
    match apiResult with
    | .success =>
        { error := "", registerCalled := true,
          navigatedTo := some "/dashboard" }
    | .failure detail =>
        { error := detail.getD "Registration failed. Please try again.",
          registerCalled := true, navigatedTo := none }

/-- C1: submitting a non-empty message with an existing session id grows the
session message list by exactly 2 (user then assistant) on a successful
send and by exactly 1 (the dangling user message, per the spec-modelled
backend gateway) on upstream failure; the client handleSendMessage
optimistically appends the user message, appends the returned assistant
message on success, and on error removes the last element of its list,
restoring it. -/
theorem chat_send_growth (st : ChatState) (ts s : String)
    (hne : jsTrim st.inputValue ≠ "") (hsend : st.sending = false)
    (hsid : st.currentSessionId = some s) :
    (∀ (history : List Message) (userMsg reply : Message),
        (gatewaySend history userMsg (some reply)).1.length
            = history.length + 2 ∧
        (gatewaySend history userMsg none).1.length = history.length + 1) ∧
    (∀ (sid : String) (m : Message),
        (handleSendMessage st ts (SendResult.success sid m)).state.messages
            = st.messages ++
              [{ role := "user", content := jsTrim st.inputValue,
                 timestamp := ts }, m] ∧
        (handleSendMessage st ts
            (SendResult.success sid m)).state.messages.length
            = st.messages.length + 2) ∧
    ((handleSendMessage st ts SendResult.failure).state.messages
        = (st.messages ++
            [({ role := "user", content := jsTrim st.inputValue,
                timestamp := ts } : Message)]).dropLast ∧
      (handleSendMessage st ts SendResult.failure).state.messages
        = st.messages) := by
  have hcond : ¬ (jsTrim st.inputValue = "" ∨ st.sending = true) := by
    simp [hne, hsend]
  refine ⟨fun history userMsg reply => by simp [gatewaySend], ?_, ?_⟩
  · intro sid m
    simp [handleSendMessage, hcond, hsid]
  · constructor
    · simp [handleSendMessage, hcond, hsid]
    · simp [handleSendMessage, hcond, hsid, List.dropLast_concat]

/-- C1 witness at a concrete state with an existing session id. -/
theorem chat_send_growth_witness :
    (handleSendMessage
        { projectId := "p1", currentSessionId := some "s1", messages := [],
          inputValue := "hi", sending := false } "t0"
        SendResult.failure).state.messages = [] :=
  (chat_send_growth
      { projectId := "p1", currentSessionId := some "s1", messages := [],
        inputValue := "hi", sending := false } "t0" "s1" (by decide) rfl
      rfl).2.2.2

/-- C3: a successful send with no current session id adopts the returned
session id, navigates to that session route, and appends the returned
assistant message immediately after the just-appended user message; a
successful send with an existing current session id leaves it unchanged
and performs no navigation. -/
theorem chat_send_session_adoption (st : ChatState) (ts sid : String)
    (m : Message) (hne : jsTrim st.inputValue ≠ "")
    (hsend : st.sending = false) :
    (st.currentSessionId = none →
        (handleSendMessage st ts
            (SendResult.success sid m)).state.currentSessionId = some sid ∧
        (handleSendMessage st ts (SendResult.success sid m)).navigatedTo
          = some (chatRoute st.projectId sid) ∧
        (handleSendMessage st ts (SendResult.success sid m)).state.messages
          = st.messages ++
            [{ role := "user", content := jsTrim st.inputValue,
               timestamp := ts }, m]) ∧
    (∀ c : String, st.currentSessionId = some c →
        (handleSendMessage st ts
            (SendResult.success sid m)).state.currentSessionId = some c ∧
        (handleSendMessage st ts (SendResult.success sid m)).navigatedTo
          = none) := by
  have hcond : ¬ (jsTrim st.inputValue = "" ∨ st.sending = true) := by
    simp [hne, hsend]
  constructor
  · intro hnone
    simp [handleSendMessage, hcond, hnone]
  · intro c hc
    simp [handleSendMessage, hcond, hc]

/-- C3 witness: a concrete send from a fresh chat adopts the returned
session id and navigates to its route. -/
theorem chat_send_session_adoption_witness :
    (handleSendMessage
        { projectId := "p1", currentSessionId := none, messages := [],
          inputValue := "hi", sending := false } "t0"
        (SendResult.success "s9"
          { role := "assistant", content := "ok",
            timestamp := "t1" })).navigatedTo
      = some (chatRoute "p1" "s9") :=
  ((chat_send_session_adoption
      { projectId := "p1", currentSessionId := none, messages := [],
        inputValue := "hi", sending := false } "t0" "s9"
      { role := "assistant", content := "ok", timestamp := "t1" }
      (by decide) rfl).1 rfl).2.1

/-- C5: submitting with empty trimmed input or while a send is in flight
issues no request and leaves the state untouched, and a request is issued
only when the trimmed input is non-empty and no send is in flight. -/
theorem chat_send_guard (st : ChatState) (ts : String) (r : SendResult)
    (h : jsTrim st.inputValue = "" ∨ st.sending = true) :
    handleSendMessage st ts r
        = { state := st, requestIssued := false, requestPayload := none,
            navigatedTo := none } ∧
    (∀ (st2 : ChatState) (ts2 : String) (r2 : SendResult),
        (handleSendMessage st2 ts2 r2).requestIssued = true →
          jsTrim st2.inputValue ≠ "" ∧ st2.sending = false) := by
  constructor
  · simp [handleSendMessage, h]
  · intro st2 ts2 r2 hreq
    by_cases hg : jsTrim st2.inputValue = "" ∨ st2.sending = true
    · simp [handleSendMessage, hg] at hreq
    · push_neg at hg
      exact ⟨hg.1, by simpa using hg.2⟩

/-- C5 witness: a whitespace-only input is dropped without touching the
state. -/
theorem chat_send_guard_witness :
    handleSendMessage
        { projectId := "p1", currentSessionId := none, messages := [],
          inputValue := "   ", sending := false } "t0" SendResult.failure
      = { state := { projectId := "p1", currentSessionId := none,
                     messages := [], inputValue := "   ",
                     sending := false },
          requestIssued := false, requestPayload := none,
          navigatedTo := none } :=
  (chat_send_guard
      { projectId := "p1", currentSessionId := none, messages := [],
        inputValue := "   ", sending := false } "t0" SendResult.failure
      (Or.inl (by decide))).1

/-- C10: selecting the current session performs no navigation, no fetch and
no state change, and selecting the same session twice in a row equals
selecting it once. -/
theorem select_session_idempotent (st : ChatState) (sid : String)
    (msgs msgsTwo : List Message) :
    (some sid = st.currentSessionId →
        handleSelectSession st sid msgs
          = { state := st, navigatedTo := none, fetchedSession := none }) ∧
    handleSelectSession (handleSelectSession st sid msgs).state sid msgsTwo
      = { state := (handleSelectSession st sid msgs).state,
          navigatedTo := none, fetchedSession := none } := by
  constructor
  · intro h
    simp [handleSelectSession, h]
  · by_cases h : some sid = st.currentSessionId
    · simp [handleSelectSession, h]
    · simp [handleSelectSession, h]

/-- C10 witness: reselecting the current session is a no-op. -/
theorem select_session_idempotent_witness :
    handleSelectSession
        { projectId := "p1", currentSessionId := some "s1", messages := [],
          inputValue := "", sending := false } "s1" []
      = { state := { projectId := "p1", currentSessionId := some "s1",
                     messages := [], inputValue := "", sending := false },
          navigatedTo := none, fetchedSession := none } :=
  (select_session_idempotent
      { projectId := "p1", currentSessionId := some "s1", messages := [],
        inputValue := "", sending := false } "s1" [] []).1 rfl

/-- C2: every outgoing request carries Authorization "Bearer " ++ token
exactly when a token is stored; a 401 response clears the stored token and
redirects to /login unless already there, and every other response leaves
the environment, token included, unchanged. -/
theorem api_auth_interceptors :
    (∀ (t : String) (config : RequestConfig),
        requestInterceptor (some t) config
          = { config with authorization := some ("Bearer " ++ t) }) ∧
    (∀ config : RequestConfig, requestInterceptor none config = config) ∧
    (∀ env : BrowserEnv,
        (responseErrorInterceptor (some 401) env).token = none ∧
        (env.pathname ≠ "/login" →
            (responseErrorInterceptor (some 401) env).href = "/login") ∧
        (env.pathname = "/login" →
            (responseErrorInterceptor (some 401) env).href = env.href)) ∧
    (∀ (status : Option Nat) (env : BrowserEnv), status ≠ some 401 →
        responseErrorInterceptor status env = env) ∧
    (∀ env : BrowserEnv, responseSuccessInterceptor env = env) := by
  refine ⟨fun t config => rfl, fun config => rfl, ?_, ?_, fun env => rfl⟩
  · intro env
    refine ⟨?_, ?_, ?_⟩
    · by_cases h : env.pathname = "/login" <;>
        simp [responseErrorInterceptor, h]
    · intro h
      simp [responseErrorInterceptor, h]
    · intro h
      simp [responseErrorInterceptor, h]
  · intro status env h
    simp [responseErrorInterceptor, h]

/-- C2 witness: a 404 passes through untouched and a 401 away from /login
redirects there. -/
theorem api_auth_interceptors_witness :
    responseErrorInterceptor (some 404)
        { token := some "tok", pathname := "/dashboard",
          href := "/dashboard" }
      = { token := some "tok", pathname := "/dashboard",
          href := "/dashboard" } ∧
    (responseErrorInterceptor (some 401)
        { token := some "tok", pathname := "/dashboard",
          href := "/dashboard" }).href = "/login" :=
  ⟨api_auth_interceptors.2.2.2.1 (some 404)
      { token := some "tok", pathname := "/dashboard",
        href := "/dashboard" } (by decide),
   (api_auth_interceptors.2.2.1
      { token := some "tok", pathname := "/dashboard",
        href := "/dashboard" }).2.1 (by decide)⟩

/-- C4: toggling a prompt sends an update payload holding only is_active,
set to the negation of the current value, and the local list changes only
at that prompt, and there only in the is_active field. -/
theorem toggle_prompt_frame (prompts : List Prompt) (prompt : Prompt)
    (hnd : (prompts.map Prompt.id).Nodup) (hmem : prompt ∈ prompts) :
    (handleTogglePrompt prompts prompt).1
        = { name := none, content := none,
            is_active := some (!prompt.is_active) } ∧
    (handleTogglePrompt prompts prompt).2.length = prompts.length ∧
    ∃ (i : ℕ) (hi : i < prompts.length)
        (hiR : i < (handleTogglePrompt prompts prompt).2.length),
      prompts.get ⟨i, hi⟩ = prompt ∧
      (handleTogglePrompt prompts prompt).2.get ⟨i, hiR⟩
          = { prompt with is_active := !prompt.is_active } ∧
      ∀ (j : ℕ) (hj : j < prompts.length)
          (hjR : j < (handleTogglePrompt prompts prompt).2.length),
        j ≠ i →
          (handleTogglePrompt prompts prompt).2.get ⟨j, hjR⟩
              = prompts.get ⟨j, hj⟩ := by
  have hlen : (handleTogglePrompt prompts prompt).2.length
      = prompts.length := by
    simp [handleTogglePrompt]
  obtain ⟨⟨i, hi⟩, hget⟩ := List.mem_iff_get.mp hmem
  have hgetElem : prompts[i] = prompt := by
    simpa [List.get_eq_getElem] using hget
  refine ⟨rfl, hlen, i, hi, by rw [hlen]; exact hi, hget, ?_, ?_⟩
  · simp [handleTogglePrompt, List.get_eq_getElem, hgetElem]
  · intro j hj hjR hne
    have hid : ¬ prompts[j].id = prompt.id := by
      intro heq
      apply hne
      have hj2 : j < (prompts.map Prompt.id).length := by simpa using hj
      have hi2 : i < (prompts.map Prompt.id).length := by simpa using hi
      have h1 : (prompts.map Prompt.id)[j] = (prompts.map Prompt.id)[i] := by
        simp [List.getElem_map, heq, hgetElem]
      exact hnd.getElem_inj_iff.mp h1
    simp [handleTogglePrompt, List.get_eq_getElem, hid]

/-- C4 witness: toggling the first of two distinct prompts flips only its
is_active field. -/
theorem toggle_prompt_frame_witness :
    (handleTogglePrompt
        [{ id := "a", name := "n1", content := "c1", is_active := true,
           created_at := "d1" },
         { id := "b", name := "n2", content := "c2", is_active := true,
           created_at := "d2" }]
        { id := "a", name := "n1", content := "c1", is_active := true,
          created_at := "d1" }).1
      = { name := none, content := none, is_active := some false } :=
  (toggle_prompt_frame
      [{ id := "a", name := "n1", content := "c1", is_active := true,
         created_at := "d1" },
       { id := "b", name := "n2", content := "c2", is_active := true,
         created_at := "d2" }]
      { id := "a", name := "n1", content := "c1", is_active := true,
        created_at := "d1" } (by decide) (by decide)).1

/-- C6: with no file selected no upload request is issued and the list is
unchanged; with a file selected exactly one multipart request is issued
whose form data holds the file under the field name "file", and on success
the returned record is prepended to the local list. -/
theorem file_upload_behavior (files : List FileRec) :
    (∀ result : Option FileRec,
        handleFileUpload none files result
          = { files := files, requestCount := 0, formFields := none,
              contentType := none }) ∧
    (∀ (f : BrowserFile) (fr : FileRec),
        handleFileUpload (some f) files (some fr)
          = { files := fr :: files, requestCount := 1,
              formFields := some [("file", f)],
              contentType := some "multipart/form-data" }) ∧
    (∀ f : BrowserFile,
        handleFileUpload (some f) files none
          = { files := files, requestCount := 1,
              formFields := some [("file", f)],
              contentType := some "multipart/form-data" }) :=
  ⟨fun _ => rfl, fun _ _ => rfl, fun _ => rfl⟩

/-- C7: a project delete request is issued only after the confirmation
dialog, whose text contains "All associated data will be lost", is
accepted; declining leaves the list untouched, and a successful delete
retains exactly the projects whose id differs from the deleted one. -/
theorem delete_project_confirmation (projects : List Project)
    (pid : String) :
    (∃ pre post : String,
        confirmDeleteProjectText
          = pre ++ "All associated data will be lost" ++ post) ∧
    (∀ success : Bool,
        handleDeleteProject projects pid false success
          = { projects := projects, requestIssued := false }) ∧
    (∀ confirmed success : Bool,
        (handleDeleteProject projects pid confirmed success).requestIssued
            = true →
          confirmed = true) ∧
    (∀ q : Project,
        q ∈ (handleDeleteProject projects pid true true).projects ↔
          q ∈ projects ∧ q.id ≠ pid) := by
  refine ⟨⟨"Are you sure you want to delete this project? ", ".", by decide⟩,
    fun success => rfl, ?_, ?_⟩
  · intro confirmed success h
    cases confirmed with
    | false => simp [handleDeleteProject] at h
    | true => rfl
  · intro q
    simp [handleDeleteProject, List.mem_filter]

/-- C7 witness: deleting project "b" after confirming removes it and keeps
project "a". -/
theorem delete_project_confirmation_witness :
    (handleDeleteProject
        [{ id := "a", name := "A", created_at := "d" }]
        "b" true true).requestIssued = true ∧
    (({ id := "a", name := "A", created_at := "d" } : Project) ∈
        (handleDeleteProject
          [{ id := "a", name := "A", created_at := "d" },
           { id := "b", name := "B", created_at := "d" }] "b" true
          true).projects) :=
  ⟨rfl,
   ((delete_project_confirmation
      [{ id := "a", name := "A", created_at := "d" },
       { id := "b", name := "B", created_at := "d" }] "b").2.2.2
      { id := "a", name := "A", created_at := "d" }).mpr
     ⟨by decide, by decide⟩⟩

/-- C8 counterexample: the root route is a route other than /login and
/register, yet with loading finished and no user it renders a redirect to
/dashboard, not to /login, as the catch-all does as well. -/
theorem app_render_root_counterexample :
    appRender { user := none, loading := false } Route.root
        ≠ Rendered.navigate "/login" ∧
    appRender { user := none, loading := false } Route.root
        = Rendered.navigate "/dashboard" ∧
    appRender { user := none, loading := false } (Route.catchAll "/nowhere")
        = Rendered.navigate "/dashboard" := by
  refine ⟨?_, rfl, rfl⟩
  intro h
  simp [appRender] at h

/-- C8 (amended): every route that wraps a page component other than
/login and /register renders a redirect to /login, not its page, when
loading has finished and no user is present; the root route and the
catch-all render a redirect to /dashboard regardless; and /login and
/register render a redirect to /dashboard whenever loading has finished
and a user is present. -/
theorem app_render_guards (auth : AuthState) (hload : auth.loading = false)
    (huser : auth.user = none) :
    appRender auth Route.dashboard = Rendered.navigate "/login" ∧
    (∀ pid, appRender auth (Route.project pid)
        = Rendered.navigate "/login") ∧
    (∀ pid, appRender auth (Route.projectChat pid)
        = Rendered.navigate "/login") ∧
    (∀ pid sid, appRender auth (Route.projectChatSession pid sid)
        = Rendered.navigate "/login") ∧
    appRender auth Route.root = Rendered.navigate "/dashboard" ∧
    (∀ p, appRender auth (Route.catchAll p)
        = Rendered.navigate "/dashboard") ∧
    (∀ u : String,
        appRender { user := some u, loading := false } Route.login
            = Rendered.navigate "/dashboard" ∧
        appRender { user := some u, loading := false } Route.register
            = Rendered.navigate "/dashboard") := by
  refine ⟨?_, fun pid => ?_, fun pid => ?_, fun pid sid => ?_, rfl,
    fun p => rfl, fun u => ⟨rfl, rfl⟩⟩ <;>
    simp [appRender, protectedRoute, hload, huser]

/-- C8 witness: with loading finished and no user the dashboard route
redirects to /login. -/
theorem app_render_guards_witness :
    appRender { user := none, loading := false } Route.dashboard
      = Rendered.navigate "/login" :=
  (app_render_guards { user := none, loading := false } rfl rfl).1

/-- C9: the register call is made exactly when the two passwords agree and
the password has length at least 6; a submission violating either
condition makes no call and sets the matching error message instead. -/
theorem register_precondition (password confirmPassword : String)
    (apiResult : RegisterApiResult) :
    ((handleRegisterSubmit password confirmPassword
          apiResult).registerCalled = true ↔
        password = confirmPassword ∧ 6 ≤ password.length) ∧
    (password ≠ confirmPassword →
        handleRegisterSubmit password confirmPassword apiResult
          = { error := "Passwords do not match", registerCalled := false,
              navigatedTo := none }) ∧
    (password = confirmPassword → password.length < 6 →
        handleRegisterSubmit password confirmPassword apiResult
          = { error := "Password must be at least 6 characters",
              registerCalled := false, navigatedTo := none }) := by
  by_cases heq : password = confirmPassword
  · subst heq
    by_cases hlen : password.length < 6
    · refine ⟨?_, fun h => absurd rfl h, fun h1 h2 => ?_⟩
      · simp [handleRegisterSubmit, hlen]
      · simp [handleRegisterSubmit, hlen]
    · refine ⟨?_, fun h => absurd rfl h, fun h1 h2 => absurd h2 hlen⟩
      cases apiResult with
      | success => simp [handleRegisterSubmit, hlen]; omega
      | failure detail => simp [handleRegisterSubmit, hlen]; omega
  · refine ⟨?_, fun h => ?_, fun h1 h2 => absurd h1 heq⟩
    · simp [handleRegisterSubmit, heq]
    · simp [handleRegisterSubmit, heq]

/-- C9 witness: mismatched passwords are rejected without a call, a short
password is rejected without a call, and matching 6-character passwords
reach the register call. -/
theorem register_precondition_witness :
    handleRegisterSubmit "a" "b" RegisterApiResult.success
      = { error := "Passwords do not match", registerCalled := false,
          navigatedTo := none } ∧
    handleRegisterSubmit "abc" "abc" RegisterApiResult.success
      = { error := "Password must be at least 6 characters",
          registerCalled := false, navigatedTo := none } ∧
    (handleRegisterSubmit "abcdef" "abcdef"
        RegisterApiResult.success).registerCalled = true :=
  ⟨(register_precondition "a" "b" RegisterApiResult.success).2.1
      (by decide),
   (register_precondition "abc" "abc" RegisterApiResult.success).2.2 rfl
      (by decide),
   (register_precondition "abcdef" "abcdef"
      RegisterApiResult.success).1.mpr ⟨rfl, by decide⟩⟩
